import Mathlib

/-! Shallow embedding of the federation-rs worker bridge.

The definitions below are translated from the TypeScript sources of the
repository: the plan-worker message loop and its error serializers
(router-bridge/js-src/introspection.ts, worker document), the older
federation-2 plan worker (federation-2/router-bridge/js-src/plan_worker.ts),
the query planner error paths (federation-2/router-bridge/js-src/plan.ts) and
the composition node truncation (federation-2/harmonizer/js-src/composition.ts).
Opaque library calls (graphql parsing, query planning, composition) are
modelled as parameters supplied by the environment. -/

/-- A GraphQL source location, a line/column pair. -/
structure SourceLocation where
  line : Nat
  column : Nat
  deriving DecidableEq, Repr

/-- A JavaScript thrown value, carrying exactly the fields that the worker
serializers inspect: name, message, stack, validationError, locations, path,
extensions, nodes, source, positions, originalError, causes, and the result of
calling toString on it (field toStr).  Fields that may be absent in JS are
Option valued; originalError and causes may themselves hold further thrown
values, hence the inductive definition. -/
inductive ErrObj where
  | mk
      (name : String)
      (message : String)
      (stack : Option String)
      (validationError : Option Bool)
      (locations : Option (List SourceLocation))
      (path : Option (List String))
      (extensions : List (String × String))
      (nodes : Option (List String))
      (source : Option String)
      (positions : Option (List Nat))
      (originalError : Option ErrObj)
      (causes : Option (List ErrObj))
      (toStr : String)

def ErrObj.name : ErrObj → String
  | .mk n _ _ _ _ _ _ _ _ _ _ _ _ => n

def ErrObj.message : ErrObj → String
  | .mk _ m _ _ _ _ _ _ _ _ _ _ _ => m

def ErrObj.stack : ErrObj → Option String
  | .mk _ _ s _ _ _ _ _ _ _ _ _ _ => s

def ErrObj.validationError : ErrObj → Option Bool
  | .mk _ _ _ v _ _ _ _ _ _ _ _ _ => v

def ErrObj.locations : ErrObj → Option (List SourceLocation)
  | .mk _ _ _ _ l _ _ _ _ _ _ _ _ => l

def ErrObj.path : ErrObj → Option (List String)
  | .mk _ _ _ _ _ p _ _ _ _ _ _ _ => p

def ErrObj.extensions : ErrObj → List (String × String)
  | .mk _ _ _ _ _ _ e _ _ _ _ _ _ => e

def ErrObj.nodes : ErrObj → Option (List String)
  | .mk _ _ _ _ _ _ _ n _ _ _ _ _ => n

def ErrObj.source : ErrObj → Option String
  | .mk _ _ _ _ _ _ _ _ s _ _ _ _ => s

def ErrObj.positions : ErrObj → Option (List Nat)
  | .mk _ _ _ _ _ _ _ _ _ p _ _ _ => p

def ErrObj.originalError : ErrObj → Option ErrObj
  | .mk _ _ _ _ _ _ _ _ _ _ o _ _ => o

def ErrObj.causes : ErrObj → Option (List ErrObj)
  | .mk _ _ _ _ _ _ _ _ _ _ _ c _ => c

def ErrObj.toStr : ErrObj → String
  | .mk _ _ _ _ _ _ _ _ _ _ _ _ t => t

/-- Serialized generic error (type JsError in introspection.ts): name, message,
stack and the validationError flag, which the serializer defaults to false. -/
structure JsError where
  name : String
  message : String
  stack : Option String
  validationError : Bool
  deriving DecidableEq, Repr

/-- Serialized cause (type CauseError): message, locations and extensions only. -/
structure CauseError where
  message : String
  locations : Option (List SourceLocation)
  extensions : List (String × String)
  deriving DecidableEq, Repr

/-- Serialized GraphQL-shaped error (type WorkerGraphQLError). -/
structure WorkerGraphQLError where
  name : String
  message : String
  locations : Option (List SourceLocation)
  path : Option (List String)
  extensions : List (String × String)
  nodes : Option (List String)
  source : Option String
  positions : Option (List Nat)
  originalError : Option JsError
  causes : Option (List CauseError)
  validationError : Bool
  deriving DecidableEq, Repr

/-- One element of the FatalError errors array: either a WorkerGraphQLError or
a generic JsError, depending on how the thrown item was discriminated. -/
inductive SerializedError where
  | graphql (e : WorkerGraphQLError)
  | js (e : JsError)
  deriving DecidableEq, Repr

def SerializedError.isJs : SerializedError → Bool
  | .js _ => true
  | .graphql _ => false

def SerializedError.validationErrorOf : SerializedError → Bool
  | .js j => j.validationError
  | .graphql g => g.validationError

/-- From introspection.ts: an error is treated as GraphQL-shaped when its name
is GraphQLError or CheckFailed. -/
def isGraphQLErrorExt (error : ErrObj) : Bool :=
  error.name == "GraphQLError" || error.name == "CheckFailed"

/-- From introspection.ts: serialize a generic error, defaulting the
validationError flag to false when the thrown value carries none. -/
def intoSerializableError (error : ErrObj) : JsError :=
  { name := error.name
    message := error.message
    stack := error.stack
    validationError := error.validationError.getD false }

/-- From introspection.ts: serialize one cause, keeping locations, message and
extensions. -/
def intoCauseError (error : ErrObj) : CauseError :=
  { message := error.message
    locations := error.locations
    extensions := error.extensions }

/-- From introspection.ts: serialize a GraphQL-shaped error.  toJSON of a
GraphQLError yields its message, locations, path and extensions, modelled here
as field projections; originalError, when present, is re-serialized with
intoSerializableError, and each cause with intoCauseError. -/
def intoSerializableGraphQLErrorExt (error : ErrObj) : WorkerGraphQLError :=
  { name := error.name
    message := error.message
    locations := error.locations
    path := error.path
    extensions := error.extensions
    nodes := error.nodes
    source := error.source
    positions := error.positions
    originalError := error.originalError.map intoSerializableError
    causes := error.causes.map (List.map intoCauseError)
    validationError := error.validationError.getD false }

/-- A thrown value caught at the serialization boundary: script code may throw
a single value or an array of values. -/
inductive Thrown where
  | single (e : ErrObj)
  | array (es : List ErrObj)

/-- The normalization Array.isArray(err) ? err : [err] from updateQueryPlanner. -/
def Thrown.toArray : Thrown → List ErrObj
  | .single e => [e]
  | .array es => es

/-- The per-item branch of the catch in updateQueryPlanner: GraphQL-shaped
errors go through intoSerializableGraphQLErrorExt, everything else through
intoSerializableError. -/
def serializeCaught (err : ErrObj) : SerializedError :=
  if isGraphQLErrorExt err then .graphql (intoSerializableGraphQLErrorExt err)
  else .js (intoSerializableError err)

/-- The whole catch body of updateQueryPlanner: normalize the thrown value to
an array and serialize each item. -/
def serializeThrown (t : Thrown) : List SerializedError :=
  t.toArray.map serializeCaught

/-- The discrimination criterion as the spec phrases it: an item is
GraphQL-like when it has the locations, path and nodes fields, or carries a
recognized name tag.  Written from the spec wording, to be compared with
serializeCaught, whose actual test is isGraphQLErrorExt (name tag only). -/
def specGraphQLLike (e : ErrObj) : Bool :=
  (e.locations.isSome && e.path.isSome && e.nodes.isSome) || isGraphQLErrorExt e

/-! JavaScript Map operations used for the planners map, on association lists:
set replaces the value when the key is present and appends otherwise, delete
removes the key, get is List.lookup. -/

/-- Map.prototype.set on an association list. -/
def jsMapSet {α : Type} (m : List (Nat × α)) (k : Nat) (v : α) : List (Nat × α) :=
  if (m.lookup k).isSome then m.map (fun kv => if kv.1 = k then (k, v) else kv)
  else m ++ [(k, v)]

/-- Map.prototype.delete on an association list. -/
def jsMapDelete {α : Type} (m : List (Nat × α)) (k : Nat) : List (Nat × α) :=
  m.filter (fun kv => kv.1 ≠ k)

namespace PlanWorker

/-! Embedding of the worker document of router-bridge/js-src/introspection.ts:
the planner events, the planners map, updateQueryPlanner and the run loop.
The planner objects held in the map are opaque to the loop; their methods come
from the plan.ts of that package and are modelled as Except valued functions,
error meaning the method threw. -/

/-- Opaque query planner configuration passed through to the constructor. -/
abbrev QueryPlannerConfigExt := String

/-- Opaque plan options forwarded to the plan method. -/
abbrev PlanOptions := String

/-- Opaque successful plan payload. -/
abbrev QueryPlanSuccess := String

/-- Opaque introspection payload. -/
abbrev IntrospectSuccess := String

/-- Subgraph name to SDL map returned by the subgraphs method. -/
abbrev SubgraphsSuccess := List (String × String)

/-- The V8 heap statistics returned by the memory usage op. -/
structure MemoryUsage where
  heapTotal : Nat
  heapUsed : Nat
  external : Nat
  deriving DecidableEq, Repr

/-- A script-side planner instance stored in the planners map.  Each method can
throw, which the model expresses as an Except result. -/
structure BridgeQueryPlanner where
  plan : String → Option String → Option PlanOptions → Except ErrObj QueryPlanSuccess
  getApiSchema : Except ErrObj String
  introspect : String → Except ErrObj IntrospectSuccess
  operationSignature : String → Option String → Except ErrObj String
  subgraphs : Except ErrObj SubgraphsSuccess

/-- The injected bridge and host ops the worker uses: the BridgeQueryPlanner
constructor (which may throw a single error or an array) and the memory usage
op (which may also throw). -/
structure Bridge where
  newBridgeQueryPlanner : String → QueryPlannerConfigExt → Except Thrown BridgeQueryPlanner
  memoryUsage : Except ErrObj MemoryUsage

/-- The recognized planner events (enum PlannerEventKind with each variant's
payload). -/
inductive PlannerEvent where
  | updateSchema (schema : String) (config : QueryPlannerConfigExt) (schemaId : Nat)
  | plan (query : String) (operationName : Option String) (schemaId : Nat)
      (options : Option PlanOptions)
  | apiSchema (schemaId : Nat)
  | introspect (query : String) (schemaId : Nat)
  | signature (query : String) (operationName : Option String) (schemaId : Nat)
  | subgraphs (schemaId : Nat)
  | getHeapStatistics
  | exit (schemaId : Nat)

def PlannerEvent.isExit : PlannerEvent → Bool
  | .exit _ => true
  | _ => false

/-- What the switch statement actually receives: a recognized event, or a
message of unknown kind that falls to the default branch. -/
inductive ReceivedEvent where
  | known (e : PlannerEvent)
  | unknown

/-- An incoming message: correlation id plus payload. -/
structure PlannerEventWithId where
  id : String
  payload : ReceivedEvent

/-- The usageReporting stub attached to error responses by the catch blocks. -/
structure WorkerUsageReporting where
  statsReportKey : String
  referencedFieldsByType : List (String × List String)
  deriving DecidableEq, Repr

/-- The error object built by the inner and outer catch blocks of run:
name, message and extensions carrying the code QUERY_PLANNING_FAILED and the
stacktrace text. -/
structure UnexpectedErrorObj where
  name : String
  message : String
  code : String
  stacktrace : String
  deriving DecidableEq, Repr

/-- The payload the catch blocks send: the unexpected errors plus an empty
usageReporting. -/
structure CatchPayload where
  errors : List UnexpectedErrorObj
  usageReporting : WorkerUsageReporting
  deriving DecidableEq, Repr

/-- A response payload (type WorkerResult), one constructor per shape the
worker sends.  updateOk stands for the constant successful-update ack object
(an empty QueryPlan with empty usageReporting). -/
inductive WorkerResult where
  | updateOk
  | fatalError (errors : List SerializedError)
  | planResult (r : QueryPlanSuccess)
  | apiSchemaResult (schema : String)
  | introspectResult (r : IntrospectSuccess)
  | signatureResult (s : String)
  | subgraphsResult (m : SubgraphsSuccess)
  | memoryResult (m : MemoryUsage)
  | queryPlanningFailed (p : CatchPayload)

/-- An outgoing message (type WorkerResultWithId): the id is optional. -/
structure WorkerResultWithId where
  id : Option String
  payload : WorkerResult

/-- Build the unexpected-error object of the catch blocks: name falls back to
unknown when falsy, the extensions carry QUERY_PLANNING_FAILED and the
stacktrace is the toString text of the thrown value. -/
def mkUnexpectedError (e : ErrObj) : UnexpectedErrorObj :=
  { name := if e.name = "" then "unknown" else e.name
    message := e.message
    code := "QUERY_PLANNING_FAILED"
    stacktrace := e.toStr }

/-- The full payload a catch block sends for a thrown value. -/
def mkCatchPayload (e : ErrObj) : CatchPayload :=
  { errors := [mkUnexpectedError e]
    usageReporting := { statsReportKey := "", referencedFieldsByType := [] } }

/-- Model of the TypeError JavaScript raises when planners.get returns
undefined and a method is then invoked on it. -/
def undefinedMethodError (method : String) : ErrObj :=
  .mk "TypeError" ("Cannot read properties of undefined (reading " ++ method ++ ")")
    none none none none [] none none none none none
    ("TypeError: Cannot read properties of undefined (reading " ++ method ++ ")")

/-- The worker state: the planners map from schema id to planner instance. -/
structure WorkerState where
  planners : List (Nat × BridgeQueryPlanner)

/-- Whether the run loop keeps iterating after a message (Exit with an empty
planners map returns from run; everything else breaks back into the loop). -/
inductive LoopControl where
  | next
  | halt
  deriving DecidableEq, Repr

/-- updateQueryPlanner from introspection.ts: construct a planner and store it
under schemaId, returning the constant ack; when the constructor throws, the
thrown value is normalized and serialized and the map is left as it was. -/
def updateQueryPlanner (bridge : Bridge) (planners : List (Nat × BridgeQueryPlanner))
    (schema : String) (options : QueryPlannerConfigExt) (schemaId : Nat) :
    List (Nat × BridgeQueryPlanner) × WorkerResult :=
  match bridge.newBridgeQueryPlanner schema options with
  | .ok p => (jsMapSet planners schemaId p, .updateOk)
  | .error err => (planners, .fatalError (serializeThrown err))

/-- The body of the inner try of run: dispatch on the event kind, producing the
next state, either a payload to send (none for Exit and the default branch) or
the thrown value the inner catch will handle, and the loop control. -/
def tryEvent (bridge : Bridge) (st : WorkerState) (ev : ReceivedEvent) :
    WorkerState × Except ErrObj (Option WorkerResult) × LoopControl :=
  match ev with
  | .known (.updateSchema schema config schemaId) =>
      let r := updateQueryPlanner bridge st.planners schema config schemaId
      (⟨r.1⟩, .ok (some r.2), .next)
  | .known (.plan query operationName schemaId options) =>
      match st.planners.lookup schemaId with
      | none => (st, .error (undefinedMethodError "plan"), .next)
      | some p =>
          match p.plan query operationName options with
          | .error e => (st, .error e, .next)
          | .ok r => (st, .ok (some (.planResult r)), .next)
  | .known (.apiSchema schemaId) =>
      match st.planners.lookup schemaId with
      | none => (st, .error (undefinedMethodError "getApiSchema"), .next)
      | some p =>
          match p.getApiSchema with
          | .error e => (st, .error e, .next)
          | .ok r => (st, .ok (some (.apiSchemaResult r)), .next)
  | .known (.introspect query schemaId) =>
      match st.planners.lookup schemaId with
      | none => (st, .error (undefinedMethodError "introspect"), .next)
      | some p =>
          match p.introspect query with
          | .error e => (st, .error e, .next)
          | .ok r => (st, .ok (some (.introspectResult r)), .next)
  | .known (.signature query operationName schemaId) =>
      match st.planners.lookup schemaId with
      | none => (st, .error (undefinedMethodError "operationSignature"), .next)
      | some p =>
          match p.operationSignature query operationName with
          | .error e => (st, .error e, .next)
          | .ok r => (st, .ok (some (.signatureResult r)), .next)
  | .known (.subgraphs schemaId) =>
      match st.planners.lookup schemaId with
      | none => (st, .error (undefinedMethodError "subgraphs"), .next)
      | some p =>
          match p.subgraphs with
          | .error e => (st, .error e, .next)
          | .ok r => (st, .ok (some (.subgraphsResult r)), .next)
  | .known .getHeapStatistics =>
      match bridge.memoryUsage with
      | .error e => (st, .error e, .next)
      | .ok m => (st, .ok (some (.memoryResult m)), .next)
  | .known (.exit schemaId) =>
      let planners := jsMapDelete st.planners schemaId
      if planners.length = 0 then (⟨planners⟩, .ok none, .halt)
      else (⟨planners⟩, .ok none, .next)
  | .unknown => (st, .ok none, .next)

/-- The result of handling one received message: next state, the messages sent
(in order) and whether the loop continues. -/
structure StepOut where
  state : WorkerState
  sends : List WorkerResultWithId
  control : LoopControl

/-- Handling of one successfully received message, inner catch included: a
produced payload is sent under the message id; a thrown value becomes the
QUERY_PLANNING_FAILED response under the same id and the loop continues. -/
def processEvent (bridge : Bridge) (st : WorkerState) (id : String) (ev : ReceivedEvent) :
    StepOut :=
  match tryEvent bridge st ev with
  | (st2, .ok none, c) => ⟨st2, [], c⟩
  | (st2, .ok (some payload), c) => ⟨st2, [⟨some id, payload⟩], c⟩
  | (st2, .error e, _) => ⟨st2, [⟨some id, .queryPlanningFailed (mkCatchPayload e)⟩], .next⟩

/-- One iteration of the run loop including the outer catch: messageId starts
as the empty string and is only assigned after receive succeeds, so when
receive itself throws, the outer catch sends the error response with the empty
string as its id. -/
def loopIter (bridge : Bridge) (st : WorkerState)
    (recv : Except ErrObj PlannerEventWithId) : StepOut :=
  match recv with
  | .error e => ⟨st, [⟨some "", .queryPlanningFailed (mkCatchPayload e)⟩], .next⟩
  | .ok m => processEvent bridge st m.id m.payload

end PlanWorker

namespace Fed2Worker

/-! Embedding of the third worker document of
federation-2/router-bridge/js-src/plan_worker.ts (the variant with the
planners map and events UpdateSchema, Plan, ApiSchema, Introspect, Exit).
Its serializers carry no validationError flag, its catch payloads split the
stacktrace on newlines, and, decisively for the correlation id claims, its
outer catch sends the error response without any id. -/

/-- Serialized generic error of this worker: no validationError field. -/
structure JsError where
  name : String
  message : String
  stack : Option String
  deriving DecidableEq, Repr

/-- Serialized GraphQL-shaped error of this worker: no validationError field. -/
structure WorkerGraphQLError where
  name : String
  message : String
  locations : Option (List SourceLocation)
  path : Option (List String)
  extensions : List (String × String)
  nodes : Option (List String)
  source : Option String
  positions : Option (List Nat)
  originalError : Option JsError
  causes : Option (List CauseError)
  deriving DecidableEq, Repr

inductive SerializedError where
  | graphql (e : WorkerGraphQLError)
  | js (e : JsError)
  deriving DecidableEq, Repr

/-- intoSerializableError of this worker: name, message and stack only. -/
def intoSerializableError (error : ErrObj) : JsError :=
  { name := error.name
    message := error.message
    stack := error.stack }

/-- intoSerializableGraphQLErrorExt of this worker. -/
def intoSerializableGraphQLErrorExt (error : ErrObj) : WorkerGraphQLError :=
  { name := error.name
    message := error.message
    locations := error.locations
    path := error.path
    extensions := error.extensions
    nodes := error.nodes
    source := error.source
    positions := error.positions
    originalError := error.originalError.map intoSerializableError
    causes := error.causes.map (List.map intoCauseError) }

def serializeCaught (err : ErrObj) : SerializedError :=
  if isGraphQLErrorExt err then .graphql (intoSerializableGraphQLErrorExt err)
  else .js (intoSerializableError err)

def serializeThrown (t : Thrown) : List SerializedError :=
  t.toArray.map serializeCaught

/-- Opaque plan payload of this worker. -/
abbrev QueryPlanSuccess := String

/-- Opaque introspection payload of this worker. -/
abbrev IntrospectSuccess := String

/-- Opaque planner configuration of this worker. -/
abbrev QueryPlannerConfig := String

/-- A planner instance of this worker: plan, getApiSchema and introspect. -/
structure BridgeQueryPlanner where
  plan : String → Option String → Except ErrObj QueryPlanSuccess
  getApiSchema : Except ErrObj String
  introspect : String → Except ErrObj IntrospectSuccess

/-- The injected bridge of this worker. -/
structure Bridge where
  newBridgeQueryPlanner : String → QueryPlannerConfig → Except Thrown BridgeQueryPlanner

/-- The recognized events of this worker. -/
inductive PlannerEvent where
  | updateSchema (schema : String) (config : QueryPlannerConfig) (schemaId : Nat)
  | plan (query : String) (operationName : Option String) (schemaId : Nat)
  | apiSchema (schemaId : Nat)
  | introspect (query : String) (schemaId : Nat)
  | exit (schemaId : Nat)

inductive ReceivedEvent where
  | known (e : PlannerEvent)
  | unknown

structure PlannerEventWithId where
  id : String
  payload : ReceivedEvent

/-- The catch-block error object of this worker: the stacktrace is the
toString text split on newlines. -/
structure UnexpectedErrorObj where
  name : String
  message : String
  code : String
  stacktrace : List String
  deriving DecidableEq, Repr

structure WorkerUsageReporting where
  statsReportKey : String
  referencedFieldsByType : List (String × List String)
  deriving DecidableEq, Repr

structure CatchPayload where
  errors : List UnexpectedErrorObj
  usageReporting : WorkerUsageReporting
  deriving DecidableEq, Repr

inductive WorkerResult where
  | updateOk
  | fatalError (errors : List SerializedError)
  | planResult (r : QueryPlanSuccess)
  | apiSchemaResult (schema : String)
  | introspectResult (r : IntrospectSuccess)
  | queryPlanningFailed (p : CatchPayload)

structure WorkerResultWithId where
  id : Option String
  payload : WorkerResult

def mkUnexpectedError (e : ErrObj) : UnexpectedErrorObj :=
  { name := if e.name = "" then "unknown" else e.name
    message := e.message
    code := "QUERY_PLANNING_FAILED"
    stacktrace := e.toStr.splitOn "\n" }

def mkCatchPayload (e : ErrObj) : CatchPayload :=
  { errors := [mkUnexpectedError e]
    usageReporting := { statsReportKey := "", referencedFieldsByType := [] } }

def undefinedMethodError (method : String) : ErrObj :=
  .mk "TypeError" ("Cannot read properties of undefined (reading " ++ method ++ ")")
    none none none none [] none none none none none
    ("TypeError: Cannot read properties of undefined (reading " ++ method ++ ")")

structure WorkerState where
  planners : List (Nat × BridgeQueryPlanner)

inductive LoopControl where
  | next
  | halt
  deriving DecidableEq, Repr

def updateQueryPlanner (bridge : Bridge) (planners : List (Nat × BridgeQueryPlanner))
    (schema : String) (options : QueryPlannerConfig) (schemaId : Nat) :
    List (Nat × BridgeQueryPlanner) × WorkerResult :=
  match bridge.newBridgeQueryPlanner schema options with
  | .ok p => (jsMapSet planners schemaId p, .updateOk)
  | .error err => (planners, .fatalError (serializeThrown err))

def tryEvent (bridge : Bridge) (st : WorkerState) (ev : ReceivedEvent) :
    WorkerState × Except ErrObj (Option WorkerResult) × LoopControl :=
  match ev with
  | .known (.updateSchema schema config schemaId) =>
      let r := updateQueryPlanner bridge st.planners schema config schemaId
      (⟨r.1⟩, .ok (some r.2), .next)
  | .known (.plan query operationName schemaId) =>
      match st.planners.lookup schemaId with
      | none => (st, .error (undefinedMethodError "plan"), .next)
      | some p =>
          match p.plan query operationName with
          | .error e => (st, .error e, .next)
          | .ok r => (st, .ok (some (.planResult r)), .next)
  | .known (.apiSchema schemaId) =>
      match st.planners.lookup schemaId with
      | none => (st, .error (undefinedMethodError "getApiSchema"), .next)
      | some p =>
          match p.getApiSchema with
          | .error e => (st, .error e, .next)
          | .ok r => (st, .ok (some (.apiSchemaResult r)), .next)
  | .known (.introspect query schemaId) =>
      match st.planners.lookup schemaId with
      | none => (st, .error (undefinedMethodError "introspect"), .next)
      | some p =>
          match p.introspect query with
          | .error e => (st, .error e, .next)
          | .ok r => (st, .ok (some (.introspectResult r)), .next)
  | .known (.exit schemaId) =>
      let planners := jsMapDelete st.planners schemaId
      if planners.length = 0 then (⟨planners⟩, .ok none, .halt)
      else (⟨planners⟩, .ok none, .next)
  | .unknown => (st, .ok none, .next)

structure StepOut where
  state : WorkerState
  sends : List WorkerResultWithId
  control : LoopControl

def processEvent (bridge : Bridge) (st : WorkerState) (id : String) (ev : ReceivedEvent) :
    StepOut :=
  match tryEvent bridge st ev with
  | (st2, .ok none, c) => ⟨st2, [], c⟩
  | (st2, .ok (some payload), c) => ⟨st2, [⟨some id, payload⟩], c⟩
  | (st2, .error e, _) => ⟨st2, [⟨some id, .queryPlanningFailed (mkCatchPayload e)⟩], .next⟩

/-- One iteration of run, outer catch included: this worker, unlike the
introspection.ts one, sends the outer-catch error response without any id. -/
def loopIter (bridge : Bridge) (st : WorkerState)
    (recv : Except ErrObj PlannerEventWithId) : StepOut :=
  match recv with
  | .error e => ⟨st, [⟨none, .queryPlanningFailed (mkCatchPayload e)⟩], .next⟩
  | .ok m => processEvent bridge st m.id m.payload

end Fed2Worker

/-- JavaScript String.prototype.startsWith, modelled on the character list so
that it evaluates structurally. -/
def jsStartsWith (s p : String) : Bool :=
  p.data.isPrefixOf s.data

namespace Plan

/-! Embedding of BridgeQueryPlanner.plan from
federation-2/router-bridge/js-src/plan.ts (first document).  The graphql
library calls (parse, validate, operationFromDocument, the signature and
referenced-fields helpers, buildQueryPlan, prettyFormatQueryPlan) are opaque
dependencies and enter as a parameter record; parse and operationFromDocument
throw GraphQLErrors, modelled as Except. -/

def PARSE_FAILURE : String := "## GraphQLParseFailure\n"

def PARSE_FAILURE_EXT_CODE : String := "GRAPHQL_PARSE_FAILED"

def VALIDATION_FAILURE : String := "## GraphQLValidationFailure\n"

def VALIDATION_FAILURE_EXT_CODE : String := "GRAPHQL_VALIDATION_FAILED"

def UNKNOWN_OPERATION : String := "## GraphQLUnknownOperationName\n"

/-- A GraphQLError as plan handles it: message, extensions map and the fields
the validation path copies over (path, nodes, positions, source,
originalError, the latter kept opaque). -/
structure GraphQLError where
  message : String
  extensions : List (String × String)
  path : Option (List String) := none
  nodes : Option (List String) := none
  positions : Option (List Nat) := none
  source : Option String := none
  originalError : Option String := none
  deriving DecidableEq, Repr

/-- Opaque parsed document. -/
abbrev DocumentNode := String

/-- Opaque operation extracted from a document. -/
abbrev Operation := String

/-- Opaque query plan. -/
abbrev QueryPlan := String

/-- Referenced fields per type, as an association list. -/
abbrev ReferencedFieldsByType := List (String × List String)

/-- The opaque graphql / federation / reporting library surface plan calls. -/
structure GraphQLLib where
  parse : String → Except GraphQLError DocumentNode
  validate : DocumentNode → List GraphQLError
  operationFromDocument : DocumentNode → Option String → Except GraphQLError Operation
  operationName : Operation → Option String
  usageReportingSignature : DocumentNode → String → String
  calculateReferencedFieldsByType : DocumentNode → Option String → ReferencedFieldsByType
  buildQueryPlan : Operation → QueryPlan
  prettyFormatQueryPlan : QueryPlan → Except GraphQLError String

structure UsageReporting where
  statsReportKey : String
  referencedFieldsByType : ReferencedFieldsByType
  deriving DecidableEq, Repr

structure QueryPlanResult where
  formattedQueryPlan : Option String
  queryPlan : QueryPlan
  deriving DecidableEq, Repr

/-- The ExecutionResultWithUsageReporting value plan returns: errors is empty
on success, data is none on the error paths. -/
structure PlanOutput where
  usageReporting : UsageReporting
  errors : List GraphQLError
  data : Option QueryPlanResult
  deriving DecidableEq, Repr

/-- The validation-path error mapping: errors with empty extensions are
rebuilt with the GRAPHQL_VALIDATION_FAILED code, the rest pass unchanged. -/
def mapValidationError (error : GraphQLError) : GraphQLError :=
  if error.extensions.length = 0 then
    { message := error.message
      extensions := [("code", VALIDATION_FAILURE_EXT_CODE)]
      path := error.path
      nodes := error.nodes
      positions := error.positions
      source := error.source
      originalError := error.originalError }
  else error

/-- BridgeQueryPlanner.plan: parse, validate, resolve the operation, then
build the plan; each failure returns normally with the matching sentinel
statsReportKey, empty referencedFieldsByType and a non-empty errors list. -/
def plan (lib : GraphQLLib) (operationString : String)
    (providedOperationName : Option String) : PlanOutput :=
  match lib.parse operationString with
  | .error parseError =>
      { usageReporting :=
          { statsReportKey := PARSE_FAILURE, referencedFieldsByType := [] }
        errors := [{ parseError with extensions := [("code", PARSE_FAILURE_EXT_CODE)] }]
        data := none }
  | .ok document =>
      let validationErrors := lib.validate document
      if validationErrors.length > 0 then
        { usageReporting :=
            { statsReportKey := VALIDATION_FAILURE, referencedFieldsByType := [] }
          errors := validationErrors.map mapValidationError
          data := none }
      else
        match lib.operationFromDocument document providedOperationName with
        | .error e =>
            let statsReportKey :=
              if jsStartsWith e.message "Unknown operation named" ||
                  jsStartsWith e.message "Must provide operation name" then
                UNKNOWN_OPERATION
              else VALIDATION_FAILURE
            { usageReporting := { statsReportKey, referencedFieldsByType := [] }
              errors := [{ e with extensions := [("code", VALIDATION_FAILURE_EXT_CODE)] }]
              data := none }
        | .ok operation =>
            let operationName := lib.operationName operation
            let operationDerivedSignature :=
              lib.usageReportingSignature document (operationName.getD "")
            let statsReportKey :=
              "# " ++ (match operationName with
                | none => "-"
                | some n => if n = "" then "-" else n) ++ "\n" ++ operationDerivedSignature
            let queryPlan := lib.buildQueryPlan operation
            let formattedQueryPlan :=
              match lib.prettyFormatQueryPlan queryPlan with
              | .ok s => some s
              | .error _ => none
            { usageReporting :=
                { statsReportKey
                  referencedFieldsByType :=
                    lib.calculateReferencedFieldsByType document operationName }
              errors := []
              data := some { queryPlan, formattedQueryPlan } }

end Plan

namespace Harmonizer

/-! Embedding of the result shaping in
federation-2/harmonizer/js-src/composition.ts: the hint and error node lists
coming back from the opaque composeServices call are truncated at
NODES_SIZE_LIMIT entries with an omitted-nodes count. -/

def NODES_SIZE_LIMIT : Nat := 20

/-- A token position as getPosition extracts it (end is a reserved word here,
hence end_). -/
structure Position where
  start : Nat
  end_ : Nat
  line : Nat
  column : Nat
  deriving DecidableEq, Repr

/-- A lexer token carrying its offsets and line/column. -/
structure Token where
  start : Nat
  end_ : Nat
  line : Nat
  column : Nat
  deriving DecidableEq, Repr

/-- The location attached to an AST node: source body plus start and end
tokens. -/
structure Loc where
  sourceBody : String
  startToken : Token
  endToken : Token
  deriving DecidableEq, Repr

/-- An AST node as getBuildErrorNode reads it: optional subgraph tag and
optional location. -/
structure ASTNode where
  subgraph : Option String
  loc : Option Loc
  deriving DecidableEq, Repr

/-- A node entry of a composition error or hint. -/
structure BuildErrorNode where
  subgraph : Option String
  source : Option String := none
  start : Option Position := none
  end_ : Option Position := none
  deriving DecidableEq, Repr

def getPosition (token : Token) : Position :=
  { start := token.start
    end_ := token.end_
    line := token.line
    column := token.column }

def getBuildErrorNode (node : ASTNode) : BuildErrorNode :=
  match node.loc with
  | none => { subgraph := node.subgraph }
  | some loc =>
      { subgraph := node.subgraph
        source := some loc.sourceBody
        start := some (getPosition loc.startToken)
        end_ := some (getPosition loc.endToken) }

/-- A hint as returned by composeServices: its rendered message, its
definition code and an optional node list. -/
structure ComposedHint where
  message : String
  code : String
  nodes : Option (List ASTNode)
  deriving DecidableEq, Repr

/-- An error as returned by composeServices: the code read off its extensions
(absent means the empty string is used), its message and an optional node
list. -/
structure ComposedError where
  code : Option String
  message : String
  nodes : Option (List ASTNode)
  deriving DecidableEq, Repr

/-- The result object of the opaque composeServices call. -/
structure ComposedOutput where
  hints : Option (List ComposedHint)
  errors : Option (List ComposedError)
  supergraphSdl : Option String
  deriving DecidableEq, Repr

structure CompositionHint where
  message : String
  code : String
  nodes : List BuildErrorNode
  omittedNodesCount : Nat
  deriving DecidableEq, Repr

structure CompositionError where
  code : String
  message : String
  nodes : List BuildErrorNode
  omittedNodesCount : Nat
  deriving DecidableEq, Repr

structure CompositionSuccess where
  supergraphSdl : Option String
  hints : List CompositionHint
  deriving DecidableEq, Repr

inductive CompositionResult where
  | ok (s : CompositionSuccess)
  | err (es : List CompositionError)
  deriving DecidableEq, Repr

/-- The node truncation both the hint and the error loops perform: with at
least NODES_SIZE_LIMIT nodes only the first NODES_SIZE_LIMIT are converted and
the rest are counted as omitted; otherwise all are converted; an absent node
list yields no nodes (the optional-chaining comparison is false and the
optional-chaining map is a no-op). -/
def processNodes (nodes : Option (List ASTNode)) : List BuildErrorNode × Nat :=
  match nodes with
  | none => ([], 0)
  | some ns =>
      if ns.length ≥ NODES_SIZE_LIMIT then
        ((ns.take NODES_SIZE_LIMIT).map getBuildErrorNode, ns.length - NODES_SIZE_LIMIT)
      else (ns.map getBuildErrorNode, 0)

def mkHint (h : ComposedHint) : CompositionHint :=
  { message := h.message
    code := h.code
    nodes := (processNodes h.nodes).1
    omittedNodesCount := (processNodes h.nodes).2 }

def mkError (e : ComposedError) : CompositionError :=
  { code := e.code.getD ""
    message := e.message
    nodes := (processNodes e.nodes).1
    omittedNodesCount := (processNodes e.nodes).2 }

/-- The result shaping of composition after the opaque composeServices call:
hints are converted when present, and a present errors field (the truthiness
test of the source) selects the error result. -/
def composition (composed : ComposedOutput) : CompositionResult :=
  let hints := (composed.hints.getD []).map mkHint
  match composed.errors with
  | some errs => .err (errs.map mkError)
  | none => .ok { supergraphSdl := composed.supergraphSdl, hints }

end Harmonizer

/-! Concrete values used to evaluate the model on specific inputs. -/

/-- A thrown value carrying every GraphQL-like field (locations, path, nodes,
extensions and friends) but an unrecognized name. -/
def errFieldsNoTag : ErrObj :=
  .mk "SomeError" "boom" (some "trace") none
    (some [⟨1, 2⟩]) (some ["field"]) [("code", "X")] (some ["node"])
    (some "query") (some [0]) none none "SomeError: boom"

/-- A thrown value with the GraphQLError name tag and no optional fields. -/
def errTagged : ErrObj :=
  .mk "GraphQLError" "bad schema" none none none none [] none none none none none
    "GraphQLError: bad schema"

/-- A plain thrown value: unrecognized name, no optional fields. -/
def errPlain : ErrObj :=
  .mk "RangeError" "receive failed" (some "trace") none none none [] none none
    none none none "RangeError: receive failed"

/-- Innermost cause of the two-level chain. -/
def causeLevel2 : ErrObj :=
  .mk "Error" "root cause" none none none none [("lvl", "2")] none none none
    none none "Error: root cause"

/-- Middle cause: its own causes list holds the innermost cause. -/
def causeLevel1 : ErrObj :=
  .mk "Error" "middle cause" none none (some [⟨3, 4⟩]) none [("lvl", "1")] none
    none none none (some [causeLevel2]) "Error: middle cause"

/-- A GraphQL-tagged error whose causes chain is two levels deep. -/
def errWithCauseChain : ErrObj :=
  .mk "GraphQLError" "top failure" none none none none [("lvl", "0")] none none
    none none (some [causeLevel1]) "GraphQLError: top failure"

namespace PlanWorker

/-- A planner instance whose methods all succeed with fixed payloads. -/
def plannerTriv : BridgeQueryPlanner :=
  { plan := fun _ _ _ => .ok "planned"
    getApiSchema := .ok "api schema"
    introspect := fun _ => .ok "introspection"
    operationSignature := fun _ _ => .ok "sig"
    subgraphs := .ok [("products", "sdl")] }

/-- A bridge whose constructor always succeeds and whose memory op succeeds. -/
def bridgeTriv : Bridge :=
  { newBridgeQueryPlanner := fun _ _ => .ok plannerTriv
    memoryUsage := .ok ⟨100, 50, 7⟩ }

/-- A bridge whose constructor always throws a single plain error. -/
def bridgeCtorFails : Bridge :=
  { newBridgeQueryPlanner := fun _ _ => .error (.single errTagged)
    memoryUsage := .ok ⟨100, 50, 7⟩ }

/-- Modelled from the spec: the error thrown by the BridgeQueryPlanner
constructor of router-bridge/js-src/plan.ts on malformed SDL.  That plan.ts is
not under src/ (the worker only imports it); per the spec, malformed SDL is
surfaced as a structured error with validationError true. -/
def specMalformedSdlError : ErrObj :=
  .mk "GraphQLError" "Syntax Error: Unexpected Name" none (some true) none none
    [("code", "INVALID_GRAPHQL")] none none none none none
    "GraphQLError: Syntax Error: Unexpected Name"

/-- Modelled from the spec: the BridgeQueryPlanner constructor of
router-bridge/js-src/plan.ts, which is not under src/.  Parametrized by which
SDL texts compile to a planner; per the spec, malformed or unparseable SDL
makes the constructor throw a validation error (validationError true), and
well-formed SDL yields a planner instance. -/
def specNewPlanner (wellFormed : String → Option BridgeQueryPlanner) :
    String → QueryPlannerConfigExt → Except Thrown BridgeQueryPlanner :=
  fun schema _ =>
    match wellFormed schema with
    | some p => .ok p
    | none => .error (.single specMalformedSdlError)

/-- Whether an event references a session id with no planner in the map, for
the five session-referencing request kinds. -/
def refsUnknownSession (st : WorkerState) : PlannerEvent → Bool
  | .plan _ _ schemaId _ => (st.planners.lookup schemaId).isNone
  | .apiSchema schemaId => (st.planners.lookup schemaId).isNone
  | .introspect _ schemaId => (st.planners.lookup schemaId).isNone
  | .signature _ _ schemaId => (st.planners.lookup schemaId).isNone
  | .subgraphs schemaId => (st.planners.lookup schemaId).isNone
  | _ => false

end PlanWorker

namespace Fed2Worker

/-- A planner instance of the federation-2 worker whose methods succeed. -/
def plannerTriv : BridgeQueryPlanner :=
  { plan := fun _ _ => .ok "planned"
    getApiSchema := .ok "api schema"
    introspect := fun _ => .ok "introspection" }

/-- A bridge of the federation-2 worker whose constructor succeeds. -/
def bridgeTriv : Bridge :=
  { newBridgeQueryPlanner := fun _ _ => .ok plannerTriv }

end Fed2Worker

namespace Plan

/-- A library in which every call succeeds. -/
def libOk : GraphQLLib :=
  { parse := fun s => .ok s
    validate := fun _ => []
    operationFromDocument := fun _ _ => .ok "op"
    operationName := fun _ => some "op"
    usageReportingSignature := fun _ _ => "sig"
    calculateReferencedFieldsByType := fun _ _ => [("Query", ["hello"])]
    buildQueryPlan := fun _ => "plan"
    prettyFormatQueryPlan := fun p => .ok p }

/-- A library whose parse call throws. -/
def libParseErr : GraphQLLib :=
  { libOk with parse := fun _ => .error { message := "Syntax Error", extensions := [] } }

/-- A library whose validate call reports one error. -/
def libValidateErr : GraphQLLib :=
  { libOk with validate := fun _ => [{ message := "Cannot query field", extensions := [] }] }

/-- A library whose operationFromDocument call throws an unknown-operation
error. -/
def libUnknownOp : GraphQLLib :=
  { libOk with
    operationFromDocument := fun _ _ =>
      Except.error { message := "Unknown operation named Foo", extensions := [] } }

end Plan

namespace Harmonizer

/-- A location-free node tagged with a subgraph name. -/
def nodeA : ASTNode := { subgraph := some "products", loc := none }

/-- A composed output with one hint holding 21 nodes and no errors. -/
def composedManyNodes : ComposedOutput :=
  { hints := some [{ message := "hint", code := "HINT_CODE", nodes := some (List.replicate 21 nodeA) }]
    errors := none
    supergraphSdl := some "sdl" }

/-- A composed output with one error holding 3 nodes. -/
def composedFewNodes : ComposedOutput :=
  { hints := none
    errors := some [{ code := some "ERR_CODE", message := "clash", nodes := some (List.replicate 3 nodeA) }]
    supergraphSdl := none }

end Harmonizer

/-- The relation claimed between an incoming node list and the produced capped
node list with its omitted count: never more than NODES_SIZE_LIMIT entries;
with at least NODES_SIZE_LIMIT incoming nodes exactly the first
NODES_SIZE_LIMIT are kept and the rest counted, otherwise all are kept and the
count is zero. -/
def Harmonizer.NodesCapped (inNodes : Option (List Harmonizer.ASTNode))
    (outNodes : List Harmonizer.BuildErrorNode) (omitted : Nat) : Prop :=
  outNodes.length ≤ Harmonizer.NODES_SIZE_LIMIT ∧
  match inNodes with
  | none => outNodes = [] ∧ omitted = 0
  | some ns =>
      if Harmonizer.NODES_SIZE_LIMIT ≤ ns.length then
        outNodes = (ns.take Harmonizer.NODES_SIZE_LIMIT).map Harmonizer.getBuildErrorNode ∧
        omitted = ns.length - Harmonizer.NODES_SIZE_LIMIT
      else outNodes = ns.map Harmonizer.getBuildErrorNode ∧ omitted = 0

/-! Helper lemmas. -/

theorem lookup_jsMapDelete_self {α : Type} (m : List (Nat × α)) (k : Nat) :
    (jsMapDelete m k).lookup k = none := by
  induction m with
  | nil => rfl
  | cons kv t ih =>
      rcases kv with ⟨k1, v⟩
      unfold jsMapDelete at ih ⊢
      rw [List.filter_cons]
      by_cases h : k1 = k
      · rw [if_neg (by simp [h])]
        exact ih
      · rw [if_pos (by simp [h])]
        have hbeq : (k == k1) = false := by
          simp [Ne.symm h]
        simp only [List.lookup, hbeq]
        exact ih

theorem lookup_jsMapDelete_ne {α : Type} (m : List (Nat × α)) (k k2 : Nat)
    (h : k2 ≠ k) :
    (jsMapDelete m k).lookup k2 = m.lookup k2 := by
  induction m with
  | nil => rfl
  | cons kv t ih =>
      rcases kv with ⟨k1, v⟩
      unfold jsMapDelete at ih ⊢
      rw [List.filter_cons]
      by_cases hk : k1 = k
      · rw [if_neg (by simp [hk])]
        have hbeq : (k2 == k1) = false := by
          simp [hk ▸ h]
        rw [ih]
        simp only [List.lookup, hbeq]
      · rw [if_pos (by simp [hk])]
        by_cases h2 : k2 = k1
        · simp only [List.lookup, h2, beq_self_eq_true]
        · have hbeq : (k2 == k1) = false := by simp [h2]
          simp only [List.lookup, hbeq]
          exact ih

/-- The ids of the messages processEvent sends, as a function of the middle
component of tryEvent. -/
theorem processEvent_sends_ids (bridge : PlanWorker.Bridge)
    (st : PlanWorker.WorkerState) (id : String) (ev : PlanWorker.ReceivedEvent) :
    (PlanWorker.processEvent bridge st id ev).sends.map PlanWorker.WorkerResultWithId.id =
      match (PlanWorker.tryEvent bridge st ev).2.1 with
      | .ok none => []
      | _ => [some id] := by
  unfold PlanWorker.processEvent
  rcases h : PlanWorker.tryEvent bridge st ev with ⟨st2, exc, c⟩
  rcases exc with e | op
  · simp
  · cases op <;> simp

/-- C2: if the handler for a message that carried a correlation id throws, the
worker still sends exactly one Response tagged with that id, wrapping the
thrown value in the errors payload built by the inner catch block. -/
theorem c2_handler_throw_still_answers (bridge : PlanWorker.Bridge)
    (st : PlanWorker.WorkerState) (id : String) (ev : PlanWorker.ReceivedEvent)
    (st2 : PlanWorker.WorkerState) (e : ErrObj) (c : PlanWorker.LoopControl)
    (h : PlanWorker.tryEvent bridge st ev = (st2, .error e, c)) :
    (PlanWorker.processEvent bridge st id ev).sends =
      [⟨some id, .queryPlanningFailed (PlanWorker.mkCatchPayload e)⟩] := by
  unfold PlanWorker.processEvent
  rw [h]

/-- Witness for C2: a Plan request against a missing session makes the handler
throw, and the worker answers under the request id with the wrapped error. -/
theorem c2_handler_throw_still_answers_witness :
    (PlanWorker.processEvent PlanWorker.bridgeTriv ⟨[]⟩ "id7"
        (.known (.plan "query" none 1 none))).sends =
      [⟨some "id7", .queryPlanningFailed (PlanWorker.mkCatchPayload
        (PlanWorker.undefinedMethodError "plan"))⟩] :=
  c2_handler_throw_still_answers PlanWorker.bridgeTriv ⟨[]⟩ "id7"
    (.known (.plan "query" none 1 none)) ⟨[]⟩
    (PlanWorker.undefinedMethodError "plan") .next rfl

/-- C5 counterexample: a thrown value carrying every GraphQL-like field
(locations, path, nodes, extensions) but an unrecognized name satisfies the
spec discriminator, yet the code serializes it as a generic JsError, not as a
WorkerGraphQLError: the claimed field-presence half of the discrimination does
not exist in the code. -/
theorem c5_counterexample :
    specGraphQLLike errFieldsNoTag = true ∧
    (serializeCaught errFieldsNoTag).isJs = true ∧
    isGraphQLErrorExt errFieldsNoTag = false :=
  ⟨rfl, rfl, rfl⟩

/-- C5 (amended): the thrown value is normalized to an array; each item is
discriminated solely by its name tag (GraphQLError or CheckFailed) — field
presence is irrelevant; name-tagged items become WorkerGraphQLErrors keeping
locations, path, extensions, nodes, source, positions, with originalError
re-serialized one level as a JsError and causes mapped to message, locations
and extensions; all other items become JsErrors with name, message, stack; and
every serialized item carries a validationError flag defaulting to false when
the thrown value has none. -/
theorem c5_serialization_shape (e : ErrObj) :
    ((serializeCaught e).isJs
      = !(e.name == "GraphQLError" || e.name == "CheckFailed")) ∧
    (serializeCaught e).validationErrorOf = e.validationError.getD false ∧
    (e.validationError = none → (serializeCaught e).validationErrorOf = false) ∧
    (isGraphQLErrorExt e = true →
      serializeCaught e = .graphql
        { name := e.name, message := e.message, locations := e.locations,
          path := e.path, extensions := e.extensions, nodes := e.nodes,
          source := e.source, positions := e.positions,
          originalError := e.originalError.map intoSerializableError,
          causes := e.causes.map (List.map intoCauseError),
          validationError := e.validationError.getD false }) ∧
    (isGraphQLErrorExt e = false →
      serializeCaught e = .js
        { name := e.name, message := e.message, stack := e.stack,
          validationError := e.validationError.getD false }) ∧
    (serializeThrown (.single e) = [serializeCaught e]) ∧
    (∀ es, serializeThrown (.array es) = es.map serializeCaught) := by
  refine ⟨?_, ?_, ?_, ?_, ?_, rfl, fun es => rfl⟩
  · by_cases h : isGraphQLErrorExt e = true
    · simp [serializeCaught, h, SerializedError.isJs, isGraphQLErrorExt] at h ⊢
      rcases h with h | h <;> simp [h]
    · simp only [Bool.not_eq_true] at h
      simp [serializeCaught, h, SerializedError.isJs, isGraphQLErrorExt] at h ⊢
      simp [h]
  · by_cases h : isGraphQLErrorExt e = true
    · simp [serializeCaught, h, SerializedError.validationErrorOf,
        intoSerializableGraphQLErrorExt]
    · simp only [Bool.not_eq_true] at h
      simp [serializeCaught, h, SerializedError.validationErrorOf,
        intoSerializableError]
  · intro hnone
    by_cases h : isGraphQLErrorExt e = true
    · simp [serializeCaught, h, SerializedError.validationErrorOf,
        intoSerializableGraphQLErrorExt, hnone]
    · simp only [Bool.not_eq_true] at h
      simp [serializeCaught, h, SerializedError.validationErrorOf,
        intoSerializableError, hnone]
  · intro h
    simp [serializeCaught, h, intoSerializableGraphQLErrorExt]
  · intro h
    simp [serializeCaught, h, intoSerializableError]

/-- Witness for C5: both discrimination outcomes evaluated on concrete thrown
values. -/
theorem c5_serialization_shape_witness :
    serializeCaught errTagged = .graphql
      { name := "GraphQLError", message := "bad schema", locations := none,
        path := none, extensions := [], nodes := none, source := none,
        positions := none, originalError := none, causes := none,
        validationError := false } ∧
    serializeCaught errPlain = .js
      { name := "RangeError", message := "receive failed",
        stack := some "trace", validationError := false } :=
  ⟨(c5_serialization_shape errTagged).2.2.2.1 rfl,
   (c5_serialization_shape errPlain).2.2.2.2.1 rfl⟩

/-- C9: serializing a GraphQL-tagged exception whose causes chain is two
levels deep yields a WorkerGraphQLError whose causes list holds exactly one
serialized cause, and that cause keeps the message, locations and extensions
of the original first-level cause (the second level is dropped because the
serialized CauseError shape has no causes field of its own). -/
theorem c9_cause_chain (e c1 c2 : ErrObj)
    (htag : isGraphQLErrorExt e = true)
    (h1 : e.causes = some [c1]) (h2 : c1.causes = some [c2]) :
    serializeCaught e = .graphql (intoSerializableGraphQLErrorExt e) ∧
    (intoSerializableGraphQLErrorExt e).causes =
      some [{ message := c1.message, locations := c1.locations,
              extensions := c1.extensions }] ∧
    ((intoSerializableGraphQLErrorExt e).causes.map List.length) = some 1 := by
  refine ⟨by simp [serializeCaught, htag], ?_, ?_⟩
  · simp [intoSerializableGraphQLErrorExt, h1, intoCauseError]
  · simp [intoSerializableGraphQLErrorExt, h1]

/-- Witness for C9: the concrete two-level cause chain, serialized. -/
theorem c9_cause_chain_witness :
    serializeCaught errWithCauseChain =
      .graphql (intoSerializableGraphQLErrorExt errWithCauseChain) ∧
    (intoSerializableGraphQLErrorExt errWithCauseChain).causes =
      some [{ message := "middle cause", locations := some [⟨3, 4⟩],
              extensions := [("lvl", "1")] }] :=
  ⟨(c9_cause_chain errWithCauseChain causeLevel1 causeLevel2 rfl rfl rfl).1,
   (c9_cause_chain errWithCauseChain causeLevel1 causeLevel2 rfl rfl rfl).2.1⟩

/-- C1 counterexample: an Exit request is a well-formed Request of a
recognized kind carrying a correlation id, yet the worker sends zero Responses
for it (the Exit case only deletes the session and breaks or returns), so it
is not answered by exactly one Response. -/
theorem c1_counterexample :
    (PlanWorker.processEvent PlanWorker.bridgeTriv
        ⟨[(2, PlanWorker.plannerTriv)]⟩ "req-1"
        (.known (.exit 1))).sends.length = 0 ∧ (0 : Nat) ≠ 1 :=
  ⟨rfl, by decide⟩

/-- C1 (amended): for every recognized planner event other than Exit, the
worker sends exactly one Response whose id is the correlation id of the
request; an Exit request is answered by no Response at all. -/
theorem c1_one_response_per_request (bridge : PlanWorker.Bridge)
    (st : PlanWorker.WorkerState) (id : String) (ev : PlanWorker.PlannerEvent) :
    (PlanWorker.processEvent bridge st id (.known ev)).sends.map
        PlanWorker.WorkerResultWithId.id =
      if ev.isExit then [] else [some id] := by
  rw [processEvent_sends_ids]
  cases ev with
  | updateSchema s c sid =>
      simp [PlanWorker.tryEvent, PlanWorker.PlannerEvent.isExit]
  | plan q opn sid opts =>
      simp only [PlanWorker.tryEvent, PlanWorker.PlannerEvent.isExit, if_false,
        Bool.false_eq_true]
      cases hl : st.planners.lookup sid with
      | none => simp [hl]
      | some p => cases hp : p.plan q opn opts <;> simp [hl, hp]
  | apiSchema sid =>
      simp only [PlanWorker.tryEvent, PlanWorker.PlannerEvent.isExit, if_false,
        Bool.false_eq_true]
      cases hl : st.planners.lookup sid with
      | none => simp [hl]
      | some p => cases hp : p.getApiSchema <;> simp [hl, hp]
  | introspect q sid =>
      simp only [PlanWorker.tryEvent, PlanWorker.PlannerEvent.isExit, if_false,
        Bool.false_eq_true]
      cases hl : st.planners.lookup sid with
      | none => simp [hl]
      | some p => cases hp : p.introspect q <;> simp [hl, hp]
  | signature q opn sid =>
      simp only [PlanWorker.tryEvent, PlanWorker.PlannerEvent.isExit, if_false,
        Bool.false_eq_true]
      cases hl : st.planners.lookup sid with
      | none => simp [hl]
      | some p => cases hp : p.operationSignature q opn <;> simp [hl, hp]
  | subgraphs sid =>
      simp only [PlanWorker.tryEvent, PlanWorker.PlannerEvent.isExit, if_false,
        Bool.false_eq_true]
      cases hl : st.planners.lookup sid with
      | none => simp [hl]
      | some p => cases hp : p.subgraphs <;> simp [hl, hp]
  | getHeapStatistics =>
      simp only [PlanWorker.tryEvent, PlanWorker.PlannerEvent.isExit, if_false,
        Bool.false_eq_true]
      cases hm : bridge.memoryUsage <;> simp [hm]
  | exit sid =>
      simp only [PlanWorker.tryEvent, PlanWorker.PlannerEvent.isExit, if_true]
      by_cases h : (jsMapDelete st.planners sid).length = 0 <;> simp [h]

/-- C4 counterexample: in the introspection.ts worker, when receive itself
fails, the outer catch sends the error Response with messageId, which still
holds its initial value, the empty string — the Response carries an id (the
empty string), it is not sent with the id absent. -/
theorem c4_counterexample :
    (PlanWorker.loopIter PlanWorker.bridgeTriv ⟨[]⟩ (.error errPlain)).sends.map
        PlanWorker.WorkerResultWithId.id = [some ""] ∧
    some "" ≠ (none : Option String) :=
  ⟨rfl, by decide⟩

/-- C4 (amended): when an exception occurs before the correlation id could be
determined (receive itself fails), the federation-2 plan_worker sends the
FatalError Response with no id, while the introspection.ts worker sends it
tagged with the sentinel empty-string id kept in the enclosing scope; in every
other failure case (a handler throwing) both workers tag the Response with the
original correlation id. -/
theorem c4_missing_id_semantics :
    (∀ (b : Fed2Worker.Bridge) (st : Fed2Worker.WorkerState) (e : ErrObj),
      (Fed2Worker.loopIter b st (.error e)).sends =
        [⟨none, .queryPlanningFailed (Fed2Worker.mkCatchPayload e)⟩]) ∧
    (∀ (b : PlanWorker.Bridge) (st : PlanWorker.WorkerState) (e : ErrObj),
      (PlanWorker.loopIter b st (.error e)).sends =
        [⟨some "", .queryPlanningFailed (PlanWorker.mkCatchPayload e)⟩]) ∧
    (∀ (b : PlanWorker.Bridge) (st st2 : PlanWorker.WorkerState) (id : String)
        (ev : PlanWorker.ReceivedEvent) (e : ErrObj) (c : PlanWorker.LoopControl),
      PlanWorker.tryEvent b st ev = (st2, .error e, c) →
      (PlanWorker.processEvent b st id ev).sends.map
        PlanWorker.WorkerResultWithId.id = [some id]) ∧
    (∀ (b : Fed2Worker.Bridge) (st st2 : Fed2Worker.WorkerState) (id : String)
        (ev : Fed2Worker.ReceivedEvent) (e : ErrObj) (c : Fed2Worker.LoopControl),
      Fed2Worker.tryEvent b st ev = (st2, .error e, c) →
      (Fed2Worker.processEvent b st id ev).sends.map
        Fed2Worker.WorkerResultWithId.id = [some id]) := by
  refine ⟨fun b st e => rfl, fun b st e => rfl, ?_, ?_⟩
  · intro b st st2 id ev e c h
    simp [PlanWorker.processEvent, h]
  · intro b st st2 id ev e c h
    simp [Fed2Worker.processEvent, h]

/-- Witness for C4: both outer-catch behaviors on a concrete receive failure,
and a concrete handler failure answered under the original id. -/
theorem c4_missing_id_semantics_witness :
    (Fed2Worker.loopIter Fed2Worker.bridgeTriv ⟨[]⟩ (.error errPlain)).sends =
      [⟨none, .queryPlanningFailed (Fed2Worker.mkCatchPayload errPlain)⟩] ∧
    (PlanWorker.loopIter PlanWorker.bridgeTriv ⟨[]⟩ (.error errPlain)).sends =
      [⟨some "", .queryPlanningFailed (PlanWorker.mkCatchPayload errPlain)⟩] ∧
    (PlanWorker.processEvent PlanWorker.bridgeTriv ⟨[]⟩ "id9"
        (.known (.apiSchema 3))).sends.map PlanWorker.WorkerResultWithId.id =
      [some "id9"] :=
  ⟨c4_missing_id_semantics.1 Fed2Worker.bridgeTriv ⟨[]⟩ errPlain,
   c4_missing_id_semantics.2.1 PlanWorker.bridgeTriv ⟨[]⟩ errPlain,
   c4_missing_id_semantics.2.2.1 PlanWorker.bridgeTriv ⟨[]⟩ ⟨[]⟩ "id9"
     (.known (.apiSchema 3)) (PlanWorker.undefinedMethodError "getApiSchema")
     .next rfl⟩

/-- C3: under the spec-modelled constructor (the plan.ts of this worker is not
under src/), an UpdateSchema request with malformed SDL is answered by an
error Response whose errors all carry validationError true, and the planners
map is unchanged (no session is created); and any Plan, ApiSchema, Introspect,
Signature or Subgraphs request referencing a session id with no planner is
answered, without crashing the worker, by a single well-formed error Response
under its id, leaving the state unchanged and the loop running. -/
theorem c3_bad_sdl_and_unknown_sessions (bridge : PlanWorker.Bridge)
    (wf : String → Option PlanWorker.BridgeQueryPlanner)
    (st : PlanWorker.WorkerState) (id : String) :
    (∀ s cfg sid,
      bridge.newBridgeQueryPlanner = PlanWorker.specNewPlanner wf →
      wf s = none →
      (PlanWorker.processEvent bridge st id
          (.known (.updateSchema s cfg sid))).state.planners = st.planners ∧
      ∃ errs,
        (PlanWorker.processEvent bridge st id
            (.known (.updateSchema s cfg sid))).sends =
          [⟨some id, .fatalError errs⟩] ∧
        errs ≠ [] ∧
        ∀ er ∈ errs, er.validationErrorOf = true) ∧
    (∀ ev, PlanWorker.refsUnknownSession st ev = true →
      (PlanWorker.processEvent bridge st id (.known ev)).state = st ∧
      (PlanWorker.processEvent bridge st id (.known ev)).control = .next ∧
      ∃ e,
        (PlanWorker.processEvent bridge st id (.known ev)).sends =
          [⟨some id, .queryPlanningFailed (PlanWorker.mkCatchPayload e)⟩]) := by
  constructor
  · intro s cfg sid hbridge hwf
    have hctor : bridge.newBridgeQueryPlanner s cfg =
        .error (.single PlanWorker.specMalformedSdlError) := by
      rw [hbridge]
      unfold PlanWorker.specNewPlanner
      rw [hwf]
    constructor
    · simp [PlanWorker.processEvent, PlanWorker.tryEvent,
        PlanWorker.updateQueryPlanner, hctor]
    · refine ⟨serializeThrown (.single PlanWorker.specMalformedSdlError), ?_, ?_, ?_⟩
      · simp [PlanWorker.processEvent, PlanWorker.tryEvent,
          PlanWorker.updateQueryPlanner, hctor]
      · simp [serializeThrown, Thrown.toArray]
      · intro er her
        simp only [serializeThrown, Thrown.toArray, List.map_cons, List.map_nil,
          List.mem_singleton] at her
        subst her
        rfl
  · intro ev hev
    cases ev with
    | plan q opn sid opts =>
        simp only [PlanWorker.refsUnknownSession, Option.isNone_iff_eq_none] at hev
        refine ⟨?_, ?_, PlanWorker.undefinedMethodError "plan", ?_⟩ <;>
          simp [PlanWorker.processEvent, PlanWorker.tryEvent, hev]
    | apiSchema sid =>
        simp only [PlanWorker.refsUnknownSession, Option.isNone_iff_eq_none] at hev
        refine ⟨?_, ?_, PlanWorker.undefinedMethodError "getApiSchema", ?_⟩ <;>
          simp [PlanWorker.processEvent, PlanWorker.tryEvent, hev]
    | introspect q sid =>
        simp only [PlanWorker.refsUnknownSession, Option.isNone_iff_eq_none] at hev
        refine ⟨?_, ?_, PlanWorker.undefinedMethodError "introspect", ?_⟩ <;>
          simp [PlanWorker.processEvent, PlanWorker.tryEvent, hev]
    | signature q opn sid =>
        simp only [PlanWorker.refsUnknownSession, Option.isNone_iff_eq_none] at hev
        refine ⟨?_, ?_, PlanWorker.undefinedMethodError "operationSignature", ?_⟩ <;>
          simp [PlanWorker.processEvent, PlanWorker.tryEvent, hev]
    | subgraphs sid =>
        simp only [PlanWorker.refsUnknownSession, Option.isNone_iff_eq_none] at hev
        refine ⟨?_, ?_, PlanWorker.undefinedMethodError "subgraphs", ?_⟩ <;>
          simp [PlanWorker.processEvent, PlanWorker.tryEvent, hev]
    | updateSchema s c sid => simp [PlanWorker.refsUnknownSession] at hev
    | getHeapStatistics => simp [PlanWorker.refsUnknownSession] at hev
    | exit sid => simp [PlanWorker.refsUnknownSession] at hev

/-- Witness for C3: concrete malformed SDL update and a concrete Plan request
against a never-created session. -/
theorem c3_bad_sdl_and_unknown_sessions_witness :
    ((PlanWorker.processEvent
        ⟨PlanWorker.specNewPlanner (fun _ => none), .ok ⟨100, 50, 7⟩⟩ ⟨[]⟩ "u1"
        (.known (.updateSchema "not valid sdl" "cfg" 1))).state.planners = [] ∧
      ∃ errs,
        (PlanWorker.processEvent
            ⟨PlanWorker.specNewPlanner (fun _ => none), .ok ⟨100, 50, 7⟩⟩ ⟨[]⟩ "u1"
            (.known (.updateSchema "not valid sdl" "cfg" 1))).sends =
          [⟨some "u1", .fatalError errs⟩] ∧
        errs ≠ [] ∧ ∀ er ∈ errs, er.validationErrorOf = true) ∧
    ∃ e,
      (PlanWorker.processEvent
          ⟨PlanWorker.specNewPlanner (fun _ => none), .ok ⟨100, 50, 7⟩⟩ ⟨[]⟩ "p1"
          (.known (.plan "query" none 1 none))).sends =
        [⟨some "p1", .queryPlanningFailed (PlanWorker.mkCatchPayload e)⟩] :=
  ⟨(c3_bad_sdl_and_unknown_sessions
      ⟨PlanWorker.specNewPlanner (fun _ => none), .ok ⟨100, 50, 7⟩⟩
      (fun _ => none) ⟨[]⟩ "u1").1 "not valid sdl" "cfg" 1 rfl rfl,
   ((c3_bad_sdl_and_unknown_sessions
      ⟨PlanWorker.specNewPlanner (fun _ => none), .ok ⟨100, 50, 7⟩⟩
      (fun _ => none) ⟨[]⟩ "p1").2 (.plan "query" none 1 none) rfl).2.2⟩

/-- The truncation relation holds between any incoming node list and what
processNodes produces for it. -/
theorem processNodes_capped (nodes : Option (List Harmonizer.ASTNode)) :
    Harmonizer.NodesCapped nodes (Harmonizer.processNodes nodes).1
      (Harmonizer.processNodes nodes).2 := by
  cases nodes with
  | none => exact ⟨by simp [Harmonizer.processNodes], rfl, rfl⟩
  | some ns =>
      unfold Harmonizer.NodesCapped Harmonizer.processNodes
      by_cases h : Harmonizer.NODES_SIZE_LIMIT ≤ ns.length
      · simp only [ge_iff_le, h, if_true]
        refine ⟨?_, trivial, trivial⟩
        simp only [List.length_map, List.length_take]
        omega
      · simp only [ge_iff_le, h, if_false]
        refine ⟨?_, trivial, trivial⟩
        simp only [List.length_map]
        omega

/-- C6: every hint and every error produced by composition keeps at most
NODES_SIZE_LIMIT nodes: with at least NODES_SIZE_LIMIT incoming nodes exactly
the first NODES_SIZE_LIMIT are kept and omittedNodesCount is the overflow,
otherwise all nodes are kept and omittedNodesCount is zero. -/
theorem c6_nodes_capped (composed : Harmonizer.ComposedOutput) :
    (∀ s, Harmonizer.composition composed = .ok s →
      List.Forall₂
        (fun hin hout =>
          Harmonizer.NodesCapped hin.nodes hout.nodes hout.omittedNodesCount)
        (composed.hints.getD []) s.hints) ∧
    (∀ es, Harmonizer.composition composed = Harmonizer.CompositionResult.err es →
      List.Forall₂
        (fun ein eout =>
          Harmonizer.NodesCapped ein.nodes eout.nodes eout.omittedNodesCount)
        (composed.errors.getD []) es) := by
  have hhint : ∀ (l : List Harmonizer.ComposedHint),
      List.Forall₂
        (fun hin hout =>
          Harmonizer.NodesCapped hin.nodes hout.nodes hout.omittedNodesCount)
        l (l.map Harmonizer.mkHint) := by
    intro l
    induction l with
    | nil => exact .nil
    | cons a t ih => exact .cons (processNodes_capped a.nodes) ih
  have herr : ∀ (l : List Harmonizer.ComposedError),
      List.Forall₂
        (fun ein eout =>
          Harmonizer.NodesCapped ein.nodes eout.nodes eout.omittedNodesCount)
        l (l.map Harmonizer.mkError) := by
    intro l
    induction l with
    | nil => exact .nil
    | cons a t ih => exact .cons (processNodes_capped a.nodes) ih
  constructor
  · intro s hs
    cases hcomp : composed.errors with
    | some errs =>
        simp only [Harmonizer.composition, hcomp] at hs
        exact absurd hs (by simp)
    | none =>
        simp only [Harmonizer.composition, hcomp] at hs
        injection hs with hs
        rw [← hs]
        exact hhint _
  · intro es hs
    cases hcomp : composed.errors with
    | none =>
        simp only [Harmonizer.composition, hcomp] at hs
        exact absurd hs (by simp)
    | some errs =>
        simp only [Harmonizer.composition, hcomp] at hs
        injection hs with hs
        rw [← hs]
        exact herr errs

/-- Witness for C6: a hint with 21 nodes is truncated to 20 with one omitted,
and an error with 3 nodes keeps all 3 with none omitted. -/
theorem c6_nodes_capped_witness :
    List.Forall₂
      (fun hin hout =>
        Harmonizer.NodesCapped hin.nodes hout.nodes hout.omittedNodesCount)
      (Harmonizer.composedManyNodes.hints.getD [])
      [Harmonizer.mkHint
        { message := "hint", code := "HINT_CODE",
          nodes := some (List.replicate 21 Harmonizer.nodeA) }] ∧
    List.Forall₂
      (fun ein eout =>
        Harmonizer.NodesCapped ein.nodes eout.nodes eout.omittedNodesCount)
      (Harmonizer.composedFewNodes.errors.getD [])
      [Harmonizer.mkError
        { code := some "ERR_CODE", message := "clash",
          nodes := some (List.replicate 3 Harmonizer.nodeA) }] :=
  ⟨(c6_nodes_capped Harmonizer.composedManyNodes).1
      ⟨some "sdl",
        [Harmonizer.mkHint
          { message := "hint", code := "HINT_CODE",
            nodes := some (List.replicate 21 Harmonizer.nodeA) }]⟩ rfl,
   (c6_nodes_capped Harmonizer.composedFewNodes).2
      [Harmonizer.mkError
        { code := some "ERR_CODE", message := "clash",
          nodes := some (List.replicate 3 Harmonizer.nodeA) }] rfl⟩

/-- C7: every failing path of BridgeQueryPlanner.plan returns normally with
its sentinel statsReportKey, a non-empty errors list, empty
referencedFieldsByType and no data: parse failures yield the parse sentinel,
validation failures the validation sentinel, unknown operation names the
unknown-operation sentinel; and a Plan request never alters the worker's
planners state, so the session stays usable. -/
theorem c7_plan_error_paths (lib : Plan.GraphQLLib) (opStr : String)
    (opName : Option String) :
    (∀ pe, lib.parse opStr = .error pe →
      (Plan.plan lib opStr opName).usageReporting.statsReportKey
          = Plan.PARSE_FAILURE ∧
      (Plan.plan lib opStr opName).errors ≠ [] ∧
      (Plan.plan lib opStr opName).usageReporting.referencedFieldsByType = [] ∧
      (Plan.plan lib opStr opName).data = none) ∧
    (∀ doc, lib.parse opStr = .ok doc → lib.validate doc ≠ [] →
      (Plan.plan lib opStr opName).usageReporting.statsReportKey
          = Plan.VALIDATION_FAILURE ∧
      (Plan.plan lib opStr opName).errors ≠ [] ∧
      (Plan.plan lib opStr opName).usageReporting.referencedFieldsByType = [] ∧
      (Plan.plan lib opStr opName).data = none) ∧
    (∀ doc e, lib.parse opStr = .ok doc → lib.validate doc = [] →
      lib.operationFromDocument doc opName = .error e →
      jsStartsWith e.message "Unknown operation named" = true →
      (Plan.plan lib opStr opName).usageReporting.statsReportKey
          = Plan.UNKNOWN_OPERATION ∧
      (Plan.plan lib opStr opName).errors ≠ [] ∧
      (Plan.plan lib opStr opName).usageReporting.referencedFieldsByType = [] ∧
      (Plan.plan lib opStr opName).data = none) ∧
    (∀ (b : PlanWorker.Bridge) (st : PlanWorker.WorkerState) (id q : String)
        (opn : Option String) (opts : Option PlanWorker.PlanOptions) (sid : Nat),
      (PlanWorker.processEvent b st id (.known (.plan q opn sid opts))).state = st ∧
      (PlanWorker.processEvent b st id (.known (.plan q opn sid opts))).control
        = .next) := by
  refine ⟨?_, ?_, ?_, ?_⟩
  · intro pe hp
    unfold Plan.plan
    rw [hp]
    exact ⟨rfl, by simp, rfl, rfl⟩
  · intro doc hp hv
    have hlen : (lib.validate doc).length > 0 := List.length_pos.mpr hv
    simp only [Plan.plan, hp, hlen, if_true]
    refine ⟨trivial, ?_, trivial, trivial⟩
    simp [hv]
  · intro doc e hp hv hop hmsg
    have hne : ¬ (lib.validate doc).length > 0 := by simp [hv]
    simp only [Plan.plan, hp, hne, if_false, hop, hmsg, Bool.true_or,
      eq_self_iff_true, if_true]
    exact ⟨trivial, by simp, trivial, trivial⟩
  · intro b st id q opn opts sid
    cases hl : st.planners.lookup sid with
    | none =>
        simp [PlanWorker.processEvent, PlanWorker.tryEvent, hl]
    | some p =>
        cases hp : p.plan q opn opts <;>
          simp [PlanWorker.processEvent, PlanWorker.tryEvent, hl, hp]

/-- Witness for C7: the three failing paths evaluated on concrete libraries
and a concrete Plan request that leaves a concrete state unchanged. -/
theorem c7_plan_error_paths_witness :
    (Plan.plan Plan.libParseErr "q" none).usageReporting.statsReportKey
        = Plan.PARSE_FAILURE ∧
    (Plan.plan Plan.libValidateErr "q" none).usageReporting.statsReportKey
        = Plan.VALIDATION_FAILURE ∧
    (Plan.plan Plan.libUnknownOp "q" (some "Foo")).usageReporting.statsReportKey
        = Plan.UNKNOWN_OPERATION ∧
    (PlanWorker.processEvent PlanWorker.bridgeTriv ⟨[]⟩ "i" 
        (.known (.plan "q" none 1 none))).state = ⟨[]⟩ :=
  ⟨((c7_plan_error_paths Plan.libParseErr "q" none).1
      { message := "Syntax Error", extensions := [] } rfl).1,
   ((c7_plan_error_paths Plan.libValidateErr "q" none).2.1 "q" rfl
      (by decide)).1,
   ((c7_plan_error_paths Plan.libUnknownOp "q" (some "Foo")).2.2.1 "q"
      { message := "Unknown operation named Foo", extensions := [] } rfl rfl rfl
      rfl).1,
   ((c7_plan_error_paths Plan.libOk "q" none).2.2.2 PlanWorker.bridgeTriv ⟨[]⟩
      "i" "q" none none 1).1⟩

/-- C8: processing Exit removes the session with that schemaId from the
planners map (other sessions are untouched), the loop returns exactly when the
map is empty afterwards, and while another session remains the loop continues
and a subsequent GetHeapStatistics request is answered with the memory
statistics. -/
theorem c8_exit_semantics (bridge : PlanWorker.Bridge)
    (st : PlanWorker.WorkerState) (id : String) (sid : Nat) :
    ((PlanWorker.processEvent bridge st id
        (.known (.exit sid))).state.planners.lookup sid = none) ∧
    (∀ k, k ≠ sid →
      (PlanWorker.processEvent bridge st id
          (.known (.exit sid))).state.planners.lookup k = st.planners.lookup k) ∧
    ((PlanWorker.processEvent bridge st id (.known (.exit sid))).control
        = .halt ↔
      (PlanWorker.processEvent bridge st id
          (.known (.exit sid))).state.planners = []) ∧
    (∀ m id2, bridge.memoryUsage = .ok m →
      (PlanWorker.processEvent bridge st id
          (.known (.exit sid))).state.planners ≠ [] →
      (PlanWorker.processEvent bridge st id (.known (.exit sid))).control
          = .next ∧
      (PlanWorker.processEvent bridge
          (PlanWorker.processEvent bridge st id (.known (.exit sid))).state id2
          (.known .getHeapStatistics)).sends
        = [⟨some id2, .memoryResult m⟩]) := by
  have hstep : PlanWorker.processEvent bridge st id (.known (.exit sid)) =
      if (jsMapDelete st.planners sid).length = 0 then
        ⟨⟨jsMapDelete st.planners sid⟩, [], .halt⟩
      else ⟨⟨jsMapDelete st.planners sid⟩, [], .next⟩ := by
    simp only [PlanWorker.processEvent, PlanWorker.tryEvent]
    by_cases h0 : (jsMapDelete st.planners sid).length = 0
    · rw [if_pos h0, if_pos h0]
    · rw [if_neg h0, if_neg h0]
  by_cases h : (jsMapDelete st.planners sid).length = 0
  · rw [hstep, if_pos h]
    refine ⟨lookup_jsMapDelete_self _ _,
      fun k hk => lookup_jsMapDelete_ne _ _ _ hk,
      iff_of_true rfl (List.length_eq_zero.mp h), ?_⟩
    intro m id2 hmem hne
    exact absurd (List.length_eq_zero.mp h) hne
  · rw [hstep, if_neg h]
    refine ⟨lookup_jsMapDelete_self _ _,
      fun k hk => lookup_jsMapDelete_ne _ _ _ hk,
      iff_of_false (by simp) (fun hnil => h (List.length_eq_zero.mpr hnil)), ?_⟩
    intro m id2 hmem hne
    refine ⟨rfl, ?_⟩
    simp [PlanWorker.processEvent, PlanWorker.tryEvent, hmem]

/-- Witness for C8: with sessions 1 and 2 registered, Exit(1) leaves the loop
running and a following GetHeapStatistics request is answered. -/
theorem c8_exit_semantics_witness :
    (PlanWorker.processEvent PlanWorker.bridgeTriv
        (PlanWorker.processEvent PlanWorker.bridgeTriv
          ⟨[(1, PlanWorker.plannerTriv), (2, PlanWorker.plannerTriv)]⟩
          "a" (.known (.exit 1))).state
        "b" (.known .getHeapStatistics)).sends
      = [⟨some "b", .memoryResult ⟨100, 50, 7⟩⟩] ∧
    (PlanWorker.processEvent PlanWorker.bridgeTriv
        ⟨[(1, PlanWorker.plannerTriv), (2, PlanWorker.plannerTriv)]⟩
        "a" (.known (.exit 1))).control = .next :=
  ⟨((c8_exit_semantics PlanWorker.bridgeTriv
      ⟨[(1, PlanWorker.plannerTriv), (2, PlanWorker.plannerTriv)]⟩ "a" 1).2.2.2
      ⟨100, 50, 7⟩ "b" rfl (List.cons_ne_nil _ _)).2,
   ((c8_exit_semantics PlanWorker.bridgeTriv
      ⟨[(1, PlanWorker.plannerTriv), (2, PlanWorker.plannerTriv)]⟩ "a" 1).2.2.2
      ⟨100, 50, 7⟩ "b" rfl (List.cons_ne_nil _ _)).1⟩

/-- C10: when the BridgeQueryPlanner constructor throws during UpdateSchema,
the planners map is left exactly as it was: no entry is added, a planner
previously registered under the same schemaId is still there, and it still
answers a subsequent Plan request. -/
theorem c10_failed_update_preserves_sessions (bridge : PlanWorker.Bridge)
    (st : PlanWorker.WorkerState) (id id2 : String) (s cfg : String) (sid : Nat)
    (t : Thrown) (h : bridge.newBridgeQueryPlanner s cfg = .error t) :
    (PlanWorker.updateQueryPlanner bridge st.planners s cfg sid).1 = st.planners ∧
    (PlanWorker.processEvent bridge st id
        (.known (.updateSchema s cfg sid))).state = st ∧
    (∀ p, st.planners.lookup sid = some p →
      (PlanWorker.processEvent bridge st id
          (.known (.updateSchema s cfg sid))).state.planners.lookup sid = some p ∧
      ∀ q opn opts r, p.plan q opn opts = .ok r →
        (PlanWorker.processEvent bridge
            (PlanWorker.processEvent bridge st id
              (.known (.updateSchema s cfg sid))).state
            id2 (.known (.plan q opn sid opts))).sends
          = [⟨some id2, .planResult r⟩]) := by
  have hupd : PlanWorker.updateQueryPlanner bridge st.planners s cfg sid =
      (st.planners, .fatalError (serializeThrown t)) := by
    unfold PlanWorker.updateQueryPlanner
    rw [h]
  have hstate : (PlanWorker.processEvent bridge st id
      (.known (.updateSchema s cfg sid))).state = st := by
    simp [PlanWorker.processEvent, PlanWorker.tryEvent, hupd]
  refine ⟨by rw [hupd], hstate, ?_⟩
  intro p hp
  rw [hstate]
  refine ⟨hp, ?_⟩
  intro q opn opts r hr
  simp [PlanWorker.processEvent, PlanWorker.tryEvent, hp, hr]

/-- Witness for C10: a failing constructor leaves session 1 in place and its
planner still answers a Plan request. -/
theorem c10_failed_update_preserves_sessions_witness :
    (PlanWorker.processEvent PlanWorker.bridgeCtorFails
        ⟨[(1, PlanWorker.plannerTriv)]⟩ "u"
        (.known (.updateSchema "sdl" "cfg" 1))).state
      = ⟨[(1, PlanWorker.plannerTriv)]⟩ ∧
    (PlanWorker.processEvent PlanWorker.bridgeCtorFails
        (PlanWorker.processEvent PlanWorker.bridgeCtorFails
          ⟨[(1, PlanWorker.plannerTriv)]⟩ "u"
          (.known (.updateSchema "sdl" "cfg" 1))).state
        "p" (.known (.plan "q" none 1 none))).sends
      = [⟨some "p", .planResult "planned"⟩] :=
  ⟨(c10_failed_update_preserves_sessions PlanWorker.bridgeCtorFails
      ⟨[(1, PlanWorker.plannerTriv)]⟩ "u" "p" "sdl" "cfg" 1 (.single errTagged)
      rfl).2.1,
   ((c10_failed_update_preserves_sessions PlanWorker.bridgeCtorFails
      ⟨[(1, PlanWorker.plannerTriv)]⟩ "u" "p" "sdl" "cfg" 1 (.single errTagged)
      rfl).2.2 PlanWorker.plannerTriv rfl).2 "q" none none "planned" rfl⟩
